import Mathlib

/-!
Verification of the natural-language specification of the `weather-api`
repository (a small Go HTTP proxy in `main.go`) against a shallow Lean
embedding of its code.

Modelling conventions:

* Go `float64` values are modelled by `GoFloat`: finite values are exact
  rationals, plus distinguished `nan` and signed-infinity constructors.
  Go's comparison operators on floats (every comparison involving NaN is
  false) are modelled by `goLt`/`goLe`/`goGt`/`goGe`.  Finite values are
  kept as exact rationals rather than binary64 bit patterns; every input
  exercised by the specification is within float64 precision, where the
  two semantics agree.
* `strconv.ParseFloat` is modelled by `parseGoFloat` over the decimal
  grammar (optional sign, digits with optional fraction, optional decimal
  exponent, and the special case-insensitive `NaN` / `±Inf` spellings).
  Overflow beyond the float64 range is a parse error, exactly as Go
  reports `ErrRange` (which the handler treats as a format error).  Go's
  underscore-separator and hexadecimal-float spellings are not modelled.
* `fmt.Sprintf("%.4f", x)` is modelled by `fmtF4` (round half to even at
  the fourth decimal, `NaN` / `+Inf` / `-Inf` for the special values).
* The Celsius conversion `int(float64(t)*9/5 + 32)` is modelled
  bit-for-bit: `roundF64` rounds an exact rational to the nearest binary64
  value (53-bit significand, round to nearest with ties to even; the
  exponent is left unbounded, which is faithful throughout the normal
  range and hence for every int64 temperature), and `goCelsiusToF` chains
  the roundings exactly as Go evaluates the expression, truncating toward
  zero at the end.
* The two upstream HTTP calls are modelled by an `Upstream` oracle giving
  the outcome of each call in order: transport failure (with the text of
  the wrapped Go error), or a status code together with the read/parse
  outcome of the body.  A parsed grid body is the `properties.forecast`
  string (Go's zero value `""` when the field is absent); a parsed
  forecast body is the list of periods.
* `getNWSWeather` and `getWeather` additionally return the number of
  upstream HTTP calls attempted, so that claims about "no upstream call"
  are statable.  Logging is a side effect outside the embedding.
-/

namespace WeatherAPI

/-! ### Character and string utilities (Go `strings` package operations) -/

/-- Decimal digit test for characters. -/
def isDig (c : Char) : Bool := decide ('0' ≤ c) && decide (c ≤ '9')

/-- Numeric value of a decimal digit character. -/
def digVal (c : Char) : Nat := c.toNat - 48

/-- Value of a list of decimal digit characters, most significant first. -/
def digitsVal (l : List Char) : Nat := l.foldl (fun acc c => acc * 10 + digVal c) 0

/-- ASCII lower-casing of one character (used for Go's case-insensitive
special float spellings). -/
def asciiLower (c : Char) : Char :=
  if 65 ≤ c.toNat ∧ c.toNat ≤ 90 then Char.ofNat (c.toNat + 32) else c

/-- ASCII upper-casing of one character.  Models `strings.ToUpper` on the
inputs relevant here: the only Unicode character whose upper case is the
ASCII letter C is the ASCII letter c, so equality of the result with
`"C"` agrees with Go's full Unicode mapping. -/
def asciiUpper (c : Char) : Char :=
  if 97 ≤ c.toNat ∧ c.toNat ≤ 122 then Char.ofNat (c.toNat - 32) else c

/-- Models `strings.ToUpper`. -/
def strToUpper (s : String) : String := String.mk (s.data.map asciiUpper)

/-- Does the character list `s` start with the list `pat`? -/
def charsStartWith : List Char → List Char → Bool
  | [], _ => true
  | _ :: _, [] => false
  | a :: as, b :: bs => a == b && charsStartWith as bs

/-- Does the character list `s` contain the list `pat` as a contiguous
run?  (Recursion is on `s`.) -/
def charsContain : List Char → List Char → Bool
  | [], pat => charsStartWith pat []
  | c :: cs, pat => charsStartWith pat (c :: cs) || charsContain cs pat

/-- Models Go's `strings.Contains`. -/
def strContains (s pat : String) : Bool := charsContain s.data pat.data

/-! ### Go float64 values and comparisons -/

/-- A Go `float64` value as observed by this program: an exact rational,
NaN, or a signed infinity (`inf true` is negative infinity). -/
inductive GoFloat where
  | nan : GoFloat
  | inf (neg : Bool) : GoFloat
  | val (q : ℚ) : GoFloat
deriving DecidableEq

/-- Go `<` on float64: false whenever either side is NaN. -/
def goLt (a b : GoFloat) : Bool :=
  match a, b with
  | .nan, _ => false
  | _, .nan => false
  | .inf true, .inf true => false
  | .inf true, _ => true
  | _, .inf true => false
  | .inf false, _ => false
  | .val _, .inf false => true
  | .val x, .val y => decide (x < y)

/-- Go `<=` on float64: false whenever either side is NaN. -/
def goLe (a b : GoFloat) : Bool :=
  match a, b with
  | .nan, _ => false
  | _, .nan => false
  | .inf true, _ => true
  | _, .inf false => true
  | .inf false, _ => false
  | .val _, .inf true => false
  | .val x, .val y => decide (x ≤ y)

/-- Go `>` on float64. -/
def goGt (a b : GoFloat) : Bool := goLt b a

/-- Go `>=` on float64. -/
def goGe (a b : GoFloat) : Bool := goLe b a

/-! ### Model of `strconv.ParseFloat(s, 64)` -/

/-- Split the longest run of leading decimal digits off a character list. -/
def takeDigits : List Char → List Char × List Char
  | [] => ([], [])
  | c :: cs =>
    if isDig c then
      let p := takeDigits cs
      (c :: p.1, p.2)
    else ([], c :: cs)

/-- Parse the decimal mantissa `digits[.digits]` (at least one digit in
total), returning its exact value as an integer numerator paired with a
power-of-ten denominator exponent, plus the unconsumed remainder. -/
def parseMantissa (cs : List Char) : Option ((Nat × Nat) × List Char) :=
  let p := takeDigits cs
  match p.2 with
  | '.' :: r2 =>
    let f := takeDigits r2
    if p.1.isEmpty && f.1.isEmpty then none
    else some ((digitsVal p.1 * 10 ^ f.1.length + digitsVal f.1, f.1.length), f.2)
  | _ => if p.1.isEmpty then none else some ((digitsVal p.1, 0), p.2)

/-- Parse the optional exponent part `[eE][+-]digits` which must consume
the whole remainder of the input. -/
def parseExpPart : List Char → Option Int
  | [] => some 0
  | c :: cs =>
    if c == 'e' || c == 'E' then
      let p : Bool × List Char :=
        match cs with
        | '+' :: r => (false, r)
        | '-' :: r => (true, r)
        | r => (false, r)
      let d := takeDigits p.2
      if d.1.isEmpty || !d.2.isEmpty then none
      else some (if p.1 then -(digitsVal d.1 : Int) else (digitsVal d.1 : Int))
    else none

/-- Smallest magnitude that `strconv.ParseFloat` reports as out of range
for float64: the literal is (2^54 - 1)·2^970 = (2^53 - 1/2)·2^971; values
of at least this magnitude round to infinity. -/
def maxFloatBound : ℚ :=
  Rat.divInt 179769313486231580793728971405303415079934132710037826936173778980444968292764750946649017977587207096330286416692887910946555547851940402630657488671505820681908902000708383676273854845817711531764475730270069855571366959622842914819860834936475292719074168444365510704342711559699508093042880177904174497792 1

/-- The negated overflow bound. -/
def minFloatBound : ℚ :=
  Rat.divInt (-179769313486231580793728971405303415079934132710037826936173778980444968292764750946649017977587207096330286416692887910946555547851940402630657488671505820681908902000708383676273854845817711531764475730270069855571366959622842914819860834936475292719074168444365510704342711559699508093042880177904174497792) 1

/-- Model of `strconv.ParseFloat(s, 64)`: `none` exactly when Go returns a
non-nil error (syntax error or overflow), otherwise the parsed value. -/
def parseGoFloat (s : String) : Option GoFloat :=
  let cs := s.data
  if cs.map asciiLower == [ 'n', 'a', 'n' ] then some .nan
  else
    let p : Bool × List Char :=
      match cs with
      | '+' :: r => (false, r)
      | '-' :: r => (true, r)
      | r => (false, r)
    let low := p.2.map asciiLower
    if low == [ 'i', 'n', 'f' ] || low == [ 'i', 'n', 'f', 'i', 'n', 'i', 't', 'y' ] then
      some (.inf p.1)
    else
      match parseMantissa p.2 with
      | none => none
      | some m =>
        match parseExpPart m.2 with
        | none => none
        | some e =>
          let sn : Int := if p.1 then -(m.1.1 : Int) else (m.1.1 : Int)
          let scale : Int := e - (m.1.2 : Int)
          let q : ℚ :=
            if 0 ≤ scale then Rat.divInt (sn * ((10 ^ scale.toNat : Nat) : Int)) 1
            else Rat.divInt sn ((10 ^ (-scale).toNat : Nat) : Int)
          if maxFloatBound ≤ q ∨ q ≤ minFloatBound then none else some (.val q)

/-! ### Model of `fmt.Sprintf("%.4f", x)` -/

/-- Left-pad a string with zeros to the given width. -/
def padLeftZeros (s : String) (w : Nat) : String :=
  String.mk (List.replicate (w - s.length) '0') ++ s

/-- Model of `fmt.Sprintf("%.4f", x)` for a Go float64: the magnitude is
scaled by 10^4 and rounded to the nearest integer with ties to even
(computed on the exact numerator and denominator), then rendered as sign,
integer part, decimal point, and a zero-padded 4-digit fraction. -/
def fmtF4 : GoFloat → String
  | .nan => "NaN"
  | .inf true => "-Inf"
  | .inf false => "+Inf"
  | .val q =>
    let n2 := q.num.natAbs * 10000
    let d := q.den
    let fl := n2 / d
    let r2 := 2 * (n2 % d)
    let m := if d < r2 then fl + 1
             else if r2 < d then fl
             else if fl % 2 = 0 then fl else fl + 1
    (if q.num < 0 then "-" else "") ++ toString (m / 10000) ++ "." ++
      padLeftZeros (toString (m % 10000)) 4

/-! ### The program under specification (`main.go`) -/

/-- Embeds `isNWSCoverageArea` (main.go lines 144-172): four sequential
inclusive bounding-box tests with Go float comparisons. -/
def isNWSCoverageArea (lat lon : GoFloat) : Bool :=
  if goGe lat (.val 25) && goLe lat (.val 50) && goGe lon (.val (-125)) && goLe lon (.val (-65)) then
    true
  else if goGe lat (.val 50) && goLe lat (.val 75) && goGe lon (.val (-180)) && goLe lon (.val (-140)) then
    true
  else if goGe lat (.val 19) && goLe lat (.val 23) && goGe lon (.val (-162)) && goLe lon (.val (-154)) then
    true
  else if goGe lat (.val 15) && goLe lat (.val 20) && goGe lon (.val (-80)) && goLe lon (.val (-68)) then
    true
  else
    false

/-- Embeds `characterizeTemperature` (main.go lines 263-272).  Go `int` is
modelled by `Int`; the comparisons agree on the whole int64 range. -/
def characterizeTemperature (tempF : Int) : String :=
  if tempF ≥ 80 then "hot"
  else if tempF ≤ 40 then "cold"
  else "moderate"

/-- Truncation of a rational toward zero (floor of nonnegative values,
ceiling of negative ones).  This is the specification side of claim C8:
the claim's `F = C * 9/5 + 32` with "integer truncation of the computed
value", read over exact rational arithmetic, to be compared with the
program's float64 computation `goCelsiusToF`. -/
def ratTrunc (q : ℚ) : Int := if 0 ≤ q then ⌊q⌋ else ⌈q⌉

/-- Bit length of a natural number: the least k with n < 2^k.  Recursion
on a fuel argument; fuel `n` suffices, since the bit length of a positive
`n` is at most `n`. -/
def bitlenAux : Nat → Nat → Nat
  | 0, _ => 0
  | fuel + 1, n => if n = 0 then 0 else bitlenAux fuel (n / 2) + 1

/-- Bit length of a natural number. -/
def bitlen (n : Nat) : Nat := bitlenAux n n

/-- `num / den` rounded to the nearest integer, ties to even — the
IEEE-754 default rounding used by Go's float64 arithmetic. -/
def divRoundHalfEven (num den : Nat) : Nat :=
  let q := num / den
  let r2 := 2 * (num % den)
  if den < r2 then q + 1
  else if r2 < den then q
  else if q % 2 = 0 then q else q + 1

/-- Rounds the exact rational `num / den` (`den ≠ 0`) to the nearest
binary64 value: 53-bit significand, round to nearest with ties to even.
The exponent is left unbounded, so the model is faithful throughout the
float64 normal range, which covers every value arising in the temperature
conversion.  The result is returned exactly, as a signed numerator paired
with a power-of-two denominator exponent: the value is `r.1 / 2 ^ r.2`.
For nonzero `n / den` the binade exponent `e` (with `2^e ≤ |n/den| <
2^(e+1)`) is located from the bit lengths of `n` and `den`, which pin it
to two candidates, and the significand is `|n/den| / 2^(e-52)` rounded
half to even. -/
def roundF64 (num : Int) (den : Nat) : Int × Nat :=
  if num = 0 then (0, 0)
  else
    let n := num.natAbs
    let s : Int := (bitlen n : Int) - (bitlen den : Int)
    let e : Int :=
      if 0 ≤ s then (if den * 2 ^ s.toNat ≤ n then s else s - 1)
      else (if den ≤ n * 2 ^ (-s).toNat then s else s - 1)
    let shift : Int := 52 - e
    let m : Nat :=
      if 0 ≤ shift then divRoundHalfEven (n * 2 ^ shift.toNat) den
      else divRoundHalfEven n (den * 2 ^ (-shift).toNat)
    let sm : Int := if num < 0 then -(m : Int) else (m : Int)
    if 0 ≤ shift then (sm, shift.toNat) else (sm * 2 ^ (-shift).toNat, 0)

/-- The Celsius branch of the conversion (main.go line 256), computed as
Go does: `int(float64(t)*9/5 + 32)` associates as
`((float64(t) * 9) / 5) + 32`, each intermediate rounded to binary64 —
the conversion of `t` to float64 (inexact beyond 2^53), the product with
9, the quotient by 5, and the sum with 32 — and the final value truncated
toward zero by the float-to-int conversion.  (Go makes the result of
`int(x)` implementation-specific when `x` overflows int64, which here
needs `|t|` above about `5.1 * 10^18`; this model returns the
mathematical truncation there, and is faithful for every smaller int64
input — in particular everywhere the claims below evaluate it.) -/
def goCelsiusToF (t : Int) : Int :=
  let f1 := roundF64 t 1
  let f2 := roundF64 (f1.1 * 9) (2 ^ f1.2)
  let f3 := roundF64 f2.1 (2 ^ f2.2 * 5)
  let f4 := roundF64 (f3.1 + 32 * (2 : Int) ^ f3.2) (2 ^ f3.2)
  f4.1.tdiv (2 ^ f4.2)

/-- Embeds the temperature-unit conversion of `getNWSWeather` (main.go
lines 253-258): `if strings.ToUpper(unit) == "C"`, convert with
`int(float64(t)*9/5 + 32)` — modelled bit-for-bit by `goCelsiusToF` —
else pass the value through. -/
def convertTemperature (t : Int) (unit : String) : Int :=
  if strToUpper unit == "C" then goCelsiusToF t else t

/-- One forecast period of the NWS forecast body (main.go lines 24-32). -/
structure Period where
  shortForecast : String
  temperature : Int
  temperatureUnit : String
deriving DecidableEq

/-- Outcome of reading and JSON-decoding one upstream response body.  The
texts carried by `readFail` and `malformed` model `err.Error()` of the
wrapped `io.ReadAll` / `json.Unmarshal` error. -/
inductive ReadBody (α : Type) where
  | readFail (errText : String) : ReadBody α
  | malformed (errText : String) : ReadBody α
  | parsed (a : α) : ReadBody α
deriving DecidableEq

/-- Outcome of one upstream `http.Get`: a transport failure (carrying the
text of the returned Go error, which embeds the request URL), or a status
code with a body outcome. -/
inductive FetchOutcome (α : Type) where
  | transportFail (errText : String) : FetchOutcome α
  | response (status : Nat) (body : ReadBody α) : FetchOutcome α
deriving DecidableEq

/-- Oracle for the two upstream calls of one request, in order: the
points lookup (parsed body = the `properties.forecast` URL string, `""`
when the field is absent) and the forecast fetch (parsed body = the list
of periods). -/
structure Upstream where
  points : FetchOutcome String
  forecast : FetchOutcome (List Period)

instance {e a : Type} [DecidableEq e] [DecidableEq a] : DecidableEq (Except e a) := fun x y =>
  match x, y with
  | .error u, .error v =>
    if h : u = v then isTrue (by rw [h]) else isFalse (by simp [h])
  | .error _, .ok _ => isFalse (by simp)
  | .ok _, .error _ => isFalse (by simp)
  | .ok u, .ok v =>
    if h : u = v then isTrue (by rw [h]) else isFalse (by simp [h])

/-- The out-of-coverage error text of `getNWSWeather` (main.go line 177). -/
def coverageMsg (lat lon : GoFloat) : String :=
  "coordinates (" ++ fmtF4 lat ++ ", " ++ fmtF4 lon ++
    ") are outside NWS coverage area (US and territories only)"

/-- The grid-404 error text of `getNWSWeather` (main.go line 195). -/
def gridNotFoundMsg (lat lon : GoFloat) : String :=
  "coordinates (" ++ fmtF4 lat ++ ", " ++ fmtF4 lon ++
    ") not found in NWS grid system - may be outside coverage area"

/-- Embeds `getNWSWeather` (main.go lines 174-261).  Returns the Go
`(string, int, error)` result as an `Except`, together with the number of
upstream HTTP calls attempted. -/
def getNWSWeather (lat lon : GoFloat) (up : Upstream) :
    Except String (String × Int) × Nat :=
  if !isNWSCoverageArea lat lon then
    (.error (coverageMsg lat lon), 0)
  else
    match up.points with
    | .transportFail e => (.error ("failed to get grid points: " ++ e), 1)
    | .response status body =>
      if status = 404 then
        (.error (gridNotFoundMsg lat lon), 1)
      else if status ≠ 200 then
        (.error ("grid points API returned status: " ++ toString status), 1)
      else
        match body with
        | .readFail e => (.error ("failed to read grid points response: " ++ e), 1)
        | .malformed e => (.error ("failed to parse grid response: " ++ e), 1)
        | .parsed forecastURL =>
          if forecastURL = "" then
            (.error "no forecast URL found in grid response", 1)
          else
            match up.forecast with
            | .transportFail e => (.error ("failed to get forecast: " ++ e), 2)
            | .response fstatus fbody =>
              if fstatus ≠ 200 then
                (.error ("forecast API returned status: " ++ toString fstatus), 2)
              else
                match fbody with
                | .readFail e => (.error ("failed to read forecast response: " ++ e), 2)
                | .malformed e => (.error ("failed to parse forecast response: " ++ e), 2)
                | .parsed periods =>
                  match periods with
                  | [] => (.error "no forecast periods found", 2)
                  | period :: _ =>
                    (.ok (period.shortForecast,
                          convertTemperature period.temperature period.temperatureUnit), 2)

/-- The wire entity `WeatherResponse` (main.go lines 16-21).  Only the
`error` field carries the `omitempty` JSON option. -/
structure WeatherResponse where
  forecast : String
  temperature : String
  coordinates : String
  errorMessage : String
deriving DecidableEq

/-- An HTTP reply of the handler: status code and response entity. -/
structure HTTPReply where
  status : Nat
  body : WeatherResponse
deriving DecidableEq

/-- Embeds `respondWithError` (main.go lines 274-280). -/
def respondWithError (message : String) (statusCode : Nat) : HTTPReply :=
  { status := statusCode,
    body := { forecast := "", temperature := "", coordinates := "", errorMessage := message } }

/-- Embeds the handler `getWeather` (main.go lines 78-140) on one request.
`lat`/`lon` are the raw query parameter values (`r.URL.Query().Get`
returns `""` for a missing parameter).  Returns the reply together with
the number of upstream HTTP calls attempted. -/
def getWeather (lat lon : String) (up : Upstream) : HTTPReply × Nat :=
  if lat = "" ∨ lon = "" then
    (respondWithError "Missing required parameters: lat and lon" 400, 0)
  else
    match parseGoFloat lat with
    | none => (respondWithError "Invalid latitude format" 400, 0)
    | some latFloat =>
      match parseGoFloat lon with
      | none => (respondWithError "Invalid longitude format" 400, 0)
      | some lonFloat =>
        if goLt latFloat (.val (-90)) || goGt latFloat (.val 90) then
          (respondWithError "Latitude must be between -90 and 90" 400, 0)
        else if goLt lonFloat (.val (-180)) || goGt lonFloat (.val 180) then
          (respondWithError "Longitude must be between -180 and 180" 400, 0)
        else
          match getNWSWeather latFloat lonFloat up with
          | (.error e, n) =>
            if strContains e "outside NWS coverage area" then
              (respondWithError e 400, n)
            else if strContains e "not found in NWS grid system" then
              (respondWithError e 400, n)
            else
              (respondWithError "Failed to retrieve weather data" 500, n)
          | (.ok r, n) =>
            ({ status := 200,
               body := { forecast := r.1,
                         temperature := characterizeTemperature r.2,
                         coordinates := fmtF4 latFloat ++ ", " ++ fmtF4 lonFloat,
                         errorMessage := "" } }, n)

/-! ### Model of `encoding/json` serialization of `WeatherResponse` -/

/-- JSON escaping of one character, as Go's `encoding/json` encoder does
with its default HTML escaping. -/
def jsonEscapeChar (c : Char) : String :=
  if c = '"' then "\\\""
  else if c = '\\' then "\\\\"
  else if c = '\n' then "\\n"
  else if c = '\r' then "\\r"
  else if c = '\t' then "\\t"
  else if c = '<' then "\\u003c"
  else if c = '>' then "\\u003e"
  else if c = '&' then "\\u0026"
  else if c.toNat < 32 then
    "\\u00" ++ String.mk [ Nat.digitChar (c.toNat / 16), Nat.digitChar (c.toNat % 16) ]
  else String.singleton c

/-- A JSON string literal for `s`. -/
def jsonString (s : String) : String :=
  "\"" ++ String.join (s.data.map jsonEscapeChar) ++ "\""

/-- Serialization of `WeatherResponse` by `json.NewEncoder(w).Encode`:
fields in declaration order, `error` omitted exactly when empty (its
`omitempty` option), and a trailing newline appended by the encoder. -/
def encodeWeatherResponse (r : WeatherResponse) : String :=
  "\x7b\"forecast\":" ++ jsonString r.forecast ++
    ",\"temperature\":" ++ jsonString r.temperature ++
    ",\"coordinates\":" ++ jsonString r.coordinates ++
    (if r.errorMessage = "" then "" else ",\"error\":" ++ jsonString r.errorMessage) ++
    "\x7d\n"

/-! ### Basic facts about the float comparisons and the coverage test -/

theorem goLt_val (a b : ℚ) : goLt (.val a) (.val b) = decide (a < b) := rfl

theorem goLe_val (a b : ℚ) : goLe (.val a) (.val b) = decide (a ≤ b) := rfl

theorem goGt_val (a b : ℚ) : goGt (.val a) (.val b) = decide (b < a) := rfl

theorem goGe_val (a b : ℚ) : goGe (.val a) (.val b) = decide (b ≤ a) := rfl

/-- The four inclusive coverage rectangles exactly as the specification
tables them (Continental US, Alaska, Hawaii, Puerto Rico/Caribbean),
stated over the mathematical values of finite coordinates. -/
def inCoverageBoxes (a b : ℚ) : Prop :=
  (25 ≤ a ∧ a ≤ 50 ∧ -125 ≤ b ∧ b ≤ -65) ∨
  (50 ≤ a ∧ a ≤ 75 ∧ -180 ≤ b ∧ b ≤ -140) ∨
  (19 ≤ a ∧ a ≤ 23 ∧ -162 ≤ b ∧ b ≤ -154) ∨
  (15 ≤ a ∧ a ≤ 20 ∧ -80 ≤ b ∧ b ≤ -68)

instance (a b : ℚ) : Decidable (inCoverageBoxes a b) := by
  unfold inCoverageBoxes
  infer_instance

theorem covered_iff (lat lon : GoFloat) :
    isNWSCoverageArea lat lon = true ↔
      ∃ a b, lat = GoFloat.val a ∧ lon = GoFloat.val b ∧ inCoverageBoxes a b := by
  cases lat with
  | nan => simp [isNWSCoverageArea, goGe, goLe]
  | inf s => cases s <;> simp [isNWSCoverageArea, goGe, goLe]
  | val a =>
    cases lon with
    | nan => simp [isNWSCoverageArea, goGe, goLe]
    | inf s => cases s <;> simp [isNWSCoverageArea, goGe, goLe]
    | val b =>
      simp only [isNWSCoverageArea, goGe_val, goLe_val, inCoverageBoxes]
      split_ifs with h1 h2 h3 h4 <;>
        simp_all [Bool.and_eq_true, decide_eq_true_eq]

/-! ### String containment lemmas -/

theorem charsStartWith_iff (pat s : List Char) :
    charsStartWith pat s = true ↔ ∃ r, s = pat ++ r := by
  induction pat generalizing s with
  | nil => simp [charsStartWith]
  | cons a as ih =>
    cases s with
    | nil => simp [charsStartWith]
    | cons b bs =>
      simp only [charsStartWith, Bool.and_eq_true, beq_iff_eq, ih, List.cons_append]
      constructor
      · rintro ⟨rfl, r, rfl⟩
        exact ⟨r, rfl⟩
      · rintro ⟨r, hr⟩
        injection hr with h1 h2
        exact ⟨h1.symm, r, h2⟩

theorem charsContain_iff (s pat : List Char) :
    charsContain s pat = true ↔ ∃ l r, s = l ++ pat ++ r := by
  induction s with
  | nil =>
    simp [charsContain, charsStartWith_iff, List.nil_eq, List.append_eq_nil]
  | cons c cs ih =>
    simp only [charsContain, Bool.or_eq_true, charsStartWith_iff, ih]
    constructor
    · rintro (⟨r, hr⟩ | ⟨l, r, hr⟩)
      · exact ⟨[], r, by simp [hr]⟩
      · exact ⟨c :: l, r, by simp [hr]⟩
    · rintro ⟨l, r, hr⟩
      cases l with
      | nil => exact Or.inl ⟨r, by simpa using hr⟩
      | cons x xs =>
        injection hr with h1 h2
        exact Or.inr ⟨xs, r, h2⟩

theorem strContains_iff (s pat : String) :
    strContains s pat = true ↔ ∃ l r, s.data = l ++ pat.data ++ r :=
  charsContain_iff s.data pat.data

theorem strContains_mid (a p b : String) : strContains (a ++ p ++ b) p = true := by
  rw [strContains_iff]
  exact ⟨a.data, b.data, by simp [String.data_append]⟩

theorem charsContain_eq_false (s pat : List Char) :
    charsContain s pat = false ↔ ∀ l r, s ≠ l ++ pat ++ r := by
  rw [← Bool.not_eq_true, charsContain_iff]
  exact not_exists.trans (forall_congr' fun l => not_exists)

theorem strContains_ne_empty (s pat : String) (hpat : pat ≠ "")
    (h : strContains s pat = true) : s ≠ "" := by
  rw [strContains_iff] at h
  obtain ⟨l, r, hr⟩ := h
  intro hs
  apply hpat
  have hd : s.data = [] := by rw [hs]
  rw [hd] at hr
  have hp := (List.append_eq_nil.mp (List.append_eq_nil.mp hr.symm).1).2
  exact String.ext hp

/-- Does the character list `s` end with the list `suf`? -/
def charsEndWith (s suf : List Char) : Bool := charsStartWith suf.reverse s.reverse

theorem charsEndWith_iff (s suf : List Char) :
    charsEndWith s suf = true ↔ ∃ l, s = l ++ suf := by
  rw [charsEndWith, charsStartWith_iff]
  constructor
  · rintro ⟨r, hr⟩
    refine ⟨r.reverse, ?_⟩
    have h2 := congrArg List.reverse hr
    simpa using h2
  · rintro ⟨l, rfl⟩
    exact ⟨l.reverse, by simp⟩

/-- No nonempty proper front part of `pat` is a suffix of `fixed`: an
occurrence of `pat` in `fixed ++ e` can then never straddle the border. -/
def straddleFree (fixed pat : List Char) : Bool :=
  (List.range pat.length).all fun k => k == 0 || !(charsEndWith fixed (pat.take k))

theorem charsContain_append_eq_false (fixed e pat : List Char)
    (hfix : charsContain fixed pat = false)
    (he : charsContain e pat = false)
    (hst : straddleFree fixed pat = true) :
    charsContain (fixed ++ e) pat = false := by
  rw [charsContain_eq_false]
  intro l r h
  rw [List.append_assoc] at h
  rcases List.append_eq_append_iff.mp h with ⟨w, hw1, hw2⟩ | ⟨w, hw1, hw2⟩
  · exact (charsContain_eq_false e pat).mp he w r (by rw [hw2, List.append_assoc])
  · rcases List.append_eq_append_iff.mp hw2 with ⟨u, hu1, hu2⟩ | ⟨u, hu1, hu2⟩
    · exact (charsContain_eq_false fixed pat).mp hfix l u
        (by rw [hw1, hu1, List.append_assoc])
    · by_cases hw : w = []
      · subst hw
        simp only [List.nil_append] at hu1
        exact (charsContain_eq_false e pat).mp he [] r
          (by rw [hu2, ← hu1, List.nil_append])
      · by_cases hu : u = []
        · subst hu
          rw [List.append_nil] at hu1
          exact (charsContain_eq_false fixed pat).mp hfix l []
            (by rw [hw1, hu1, List.append_nil])
        · have hk1 : 0 < w.length := List.length_pos.mpr hw
          have hk2 : w.length < pat.length := by
            have := congrArg List.length hu1
            simp only [List.length_append] at this
            have hu0 : 0 < u.length := List.length_pos.mpr hu
            omega
          have htake : pat.take w.length = w := by
            rw [hu1]
            exact List.take_left w u
          have hend : charsEndWith fixed w = true :=
            (charsEndWith_iff fixed w).mpr ⟨l, hw1⟩
          rw [straddleFree, List.all_eq_true] at hst
          have h0 := hst w.length (List.mem_range.mpr hk2)
          simp only [htake, hend, Bool.not_true, Bool.or_false, beq_iff_eq] at h0
          omega

theorem strContains_append_eq_false (fixed e pat : String)
    (hfix : strContains fixed pat = false)
    (he : strContains e pat = false)
    (hst : straddleFree fixed.data pat.data = true) :
    strContains (fixed ++ e) pat = false := by
  unfold strContains at hfix he ⊢
  rw [String.data_append]
  exact charsContain_append_eq_false _ _ _ hfix he hst

/-! ### The decimal rendering of a natural number consists of digits -/

theorem digitChar_isDig : ∀ m, m < 10 → isDig (Nat.digitChar m) = true := by decide

theorem toDigitsCore_all_digits (fuel : Nat) : ∀ (n : Nat) (acc : List Char),
    (∀ c ∈ acc, isDig c = true) →
    ∀ c ∈ Nat.toDigitsCore 10 fuel n acc, isDig c = true := by
  induction fuel with
  | zero =>
    intro n acc hacc c hc
    rw [Nat.toDigitsCore] at hc
    exact hacc c hc
  | succ f ih =>
    intro n acc hacc c hc
    simp only [Nat.toDigitsCore] at hc
    have hacc2 : ∀ x ∈ Nat.digitChar (n % 10) :: acc, isDig x = true := by
      intro x hx
      rcases List.mem_cons.mp hx with rfl | hx
      · exact digitChar_isDig (n % 10) (Nat.mod_lt _ (by norm_num))
      · exact hacc x hx
    split at hc
    · exact hacc2 c hc
    · exact ih (n / 10) _ hacc2 c hc

theorem toStringNat_all_digits (n : Nat) : ∀ c ∈ (toString n).data, isDig c = true := by
  have h : (toString n).data = Nat.toDigitsCore 10 (n + 1) n [] := rfl
  rw [h]
  exact toDigitsCore_all_digits (n + 1) n [] (by intro c hc; cases hc)

theorem charsContain_digits_eq_false (s : List Char) (c : Char) (cs : List Char)
    (hs : ∀ x ∈ s, isDig x = true) (hc : isDig c = false) :
    charsContain s (c :: cs) = false := by
  rw [charsContain_eq_false]
  intro l r h
  have hmem : c ∈ s := by rw [h]; simp
  rw [hs c hmem] at hc
  cases hc

theorem strContains_nat_tail_eq_false (pre : String) (n : Nat) (pat : String)
    (c : Char) (cs : List Char)
    (hpat : pat.data = c :: cs) (hc : isDig c = false)
    (hpre : strContains pre pat = false)
    (hst : straddleFree pre.data pat.data = true) :
    strContains (pre ++ toString n) pat = false := by
  apply strContains_append_eq_false _ _ _ hpre _ hst
  unfold strContains
  rw [hpat]
  exact charsContain_digits_eq_false _ c cs (toStringNat_all_digits n) hc

/-! ### Characterization of the case-insensitive unit match -/

theorem char_toNat_inj (a b : Char) (h : a.toNat = b.toNat) : a = b :=
  Char.ext (UInt32.ext h)

theorem asciiUpper_eq_C (c : Char) : asciiUpper c = 'C' ↔ c = 'C' ∨ c = 'c' := by
  unfold asciiUpper
  split_ifs with h
  · have hofn : ∀ m, m ≤ 90 → 65 ≤ m → (Char.ofNat m).toNat = m := by decide
    constructor
    · intro he
      have h2 : (Char.ofNat (c.toNat - 32)).toNat = c.toNat - 32 :=
        hofn _ (by omega) (by omega)
      rw [he] at h2
      have h3 : (('C' : Char)).toNat = 67 := by decide
      have h9 : c.toNat = 99 := by omega
      right
      exact char_toNat_inj c 'c' (by rw [h9]; decide)
    · rintro (rfl | rfl)
      · exfalso
        revert h
        decide
      · decide
  · constructor
    · intro he
      exact Or.inl he
    · rintro (rfl | rfl)
      · rfl
      · exact absurd (by decide) h

theorem strToUpper_eq_C (u : String) : strToUpper u = "C" ↔ u = "C" ∨ u = "c" := by
  constructor
  · intro h
    have hd : u.data.map asciiUpper = [ 'C' ] := congrArg String.data h
    cases hu : u.data with
    | nil => rw [hu] at hd; cases hd
    | cons a l =>
      rw [hu] at hd
      simp only [List.map_cons] at hd
      injection hd with h1 h2
      have hl : l = [] := List.map_eq_nil_iff.mp h2
      subst hl
      rcases (asciiUpper_eq_C a).mp h1 with rfl | rfl
      · exact Or.inl (String.ext (by rw [hu]))
      · exact Or.inr (String.ext (by rw [hu]))
  · rintro (rfl | rfl) <;> decide

/-- Exact truncation toward zero of an integer divided by five is the
integer truncating division `tdiv`. -/
theorem ratTrunc_intCast_div_five (a : Int) :
    ratTrunc ((a : ℚ) / 5) = a.tdiv 5 := by
  have h5 : ((5 : ℕ) : ℚ) = 5 := by norm_num
  unfold ratTrunc
  rcases le_or_lt 0 a with ha | ha
  · rw [if_pos (div_nonneg (by exact_mod_cast ha) (by norm_num))]
    rw [← h5, Rat.floor_intCast_div_natCast, Int.tdiv_eq_ediv ha (by decide)]
    norm_num
  · rw [if_neg (not_le.mpr (div_neg_of_neg_of_pos (by exact_mod_cast ha) (by norm_num)))]
    have hrw : (a : ℚ) / 5 = -(((-a : Int) : ℚ) / ((5 : ℕ) : ℚ)) := by
      push_cast
      ring
    rw [hrw, Int.ceil_neg, Rat.floor_intCast_div_natCast]
    conv_rhs => rw [show a = -(-a) from (neg_neg a).symm, Int.neg_tdiv]
    rw [Int.tdiv_eq_ediv (show (0 : Int) ≤ -a by omega) (by decide)]
    norm_num

/-- The claim's exact reading of the conversion formula — truncation
toward zero of v * 9/5 + 32 over the rationals — as integer arithmetic. -/
theorem ratTrunc_nine_fifths (v : Int) :
    ratTrunc ((v : ℚ) * 9 / 5 + 32) = (9 * v + 160).tdiv 5 := by
  have h : (v : ℚ) * 9 / 5 + 32 = ((9 * v + 160 : Int) : ℚ) / 5 := by
    push_cast
    ring
  rw [h, ratTrunc_intCast_div_five]

/-! ### Unfolding lemmas for the resolver and the handler -/

theorem getNWSWeather_uncovered (lat lon : GoFloat) (up : Upstream)
    (h : isNWSCoverageArea lat lon = false) :
    getNWSWeather lat lon up = (.error (coverageMsg lat lon), 0) := by
  unfold getNWSWeather
  rw [h]
  simp

theorem getNWSWeather_grid404 (lat lon : GoFloat) (up : Upstream)
    (body : ReadBody String)
    (hcov : isNWSCoverageArea lat lon = true)
    (hpts : up.points = .response 404 body) :
    getNWSWeather lat lon up = (.error (gridNotFoundMsg lat lon), 1) := by
  unfold getNWSWeather
  rw [hcov, hpts]
  simp

theorem getNWSWeather_gridStatus (lat lon : GoFloat) (up : Upstream)
    (status : Nat) (body : ReadBody String)
    (hcov : isNWSCoverageArea lat lon = true)
    (hpts : up.points = .response status body)
    (h404 : status ≠ 404) (h200 : status ≠ 200) :
    getNWSWeather lat lon up =
      (.error ("grid points API returned status: " ++ toString status), 1) := by
  unfold getNWSWeather
  rw [hcov, hpts]
  simp [h404, h200]

theorem getNWSWeather_noURL (lat lon : GoFloat) (up : Upstream)
    (hcov : isNWSCoverageArea lat lon = true)
    (hpts : up.points = .response 200 (.parsed "")) :
    getNWSWeather lat lon up = (.error "no forecast URL found in grid response", 1) := by
  unfold getNWSWeather
  rw [hcov, hpts]
  simp

theorem getNWSWeather_forecastStatus (lat lon : GoFloat) (up : Upstream)
    (url : String) (fstatus : Nat) (fbody : ReadBody (List Period))
    (hcov : isNWSCoverageArea lat lon = true)
    (hpts : up.points = .response 200 (.parsed url)) (hurl : url ≠ "")
    (hfc : up.forecast = .response fstatus fbody) (hf200 : fstatus ≠ 200) :
    getNWSWeather lat lon up =
      (.error ("forecast API returned status: " ++ toString fstatus), 2) := by
  unfold getNWSWeather
  rw [hcov, hpts, hfc]
  simp [hurl, hf200]

theorem getNWSWeather_noPeriods (lat lon : GoFloat) (up : Upstream)
    (url : String)
    (hcov : isNWSCoverageArea lat lon = true)
    (hpts : up.points = .response 200 (.parsed url)) (hurl : url ≠ "")
    (hfc : up.forecast = .response 200 (.parsed [])) :
    getNWSWeather lat lon up = (.error "no forecast periods found", 2) := by
  unfold getNWSWeather
  rw [hcov, hpts, hfc]
  simp [hurl]

theorem getNWSWeather_success (lat lon : GoFloat) (up : Upstream)
    (url : String) (period : Period) (rest : List Period)
    (hcov : isNWSCoverageArea lat lon = true)
    (hpts : up.points = .response 200 (.parsed url)) (hurl : url ≠ "")
    (hfc : up.forecast = .response 200 (.parsed (period :: rest))) :
    getNWSWeather lat lon up =
      (.ok (period.shortForecast,
            convertTemperature period.temperature period.temperatureUnit), 2) := by
  unfold getNWSWeather
  rw [hcov, hpts, hfc]
  simp [hurl]

theorem getWeather_validated (lat lon : String) (lf lg : GoFloat) (up : Upstream)
    (hlat : lat ≠ "") (hlon : lon ≠ "")
    (plat : parseGoFloat lat = some lf) (plon : parseGoFloat lon = some lg)
    (r1 : (goLt lf (.val (-90)) || goGt lf (.val 90)) = false)
    (r2 : (goLt lg (.val (-180)) || goGt lg (.val 180)) = false) :
    getWeather lat lon up =
      (match getNWSWeather lf lg up with
       | (.error e, n) =>
         if strContains e "outside NWS coverage area" then (respondWithError e 400, n)
         else if strContains e "not found in NWS grid system" then (respondWithError e 400, n)
         else (respondWithError "Failed to retrieve weather data" 500, n)
       | (.ok r, n) =>
         ({ status := 200,
            body := { forecast := r.1, temperature := characterizeTemperature r.2,
                      coordinates := fmtF4 lf ++ ", " ++ fmtF4 lg,
                      errorMessage := "" } }, n)) := by
  unfold getWeather
  rw [if_neg (by simp [hlat, hlon])]
  simp only [plat, plon, r1, r2, Bool.false_eq_true, if_false]

theorem getWeather_resolver_error (lat lon : String) (lf lg : GoFloat) (up : Upstream)
    {e : String} {n : Nat}
    (hlat : lat ≠ "") (hlon : lon ≠ "")
    (plat : parseGoFloat lat = some lf) (plon : parseGoFloat lon = some lg)
    (r1 : (goLt lf (.val (-90)) || goGt lf (.val 90)) = false)
    (r2 : (goLt lg (.val (-180)) || goGt lg (.val 180)) = false)
    (hres : getNWSWeather lf lg up = (.error e, n)) :
    getWeather lat lon up =
      (if strContains e "outside NWS coverage area" then (respondWithError e 400, n)
       else if strContains e "not found in NWS grid system" then (respondWithError e 400, n)
       else (respondWithError "Failed to retrieve weather data" 500, n)) := by
  rw [getWeather_validated lat lon lf lg up hlat hlon plat plon r1 r2, hres]

theorem getWeather_resolver_ok (lat lon : String) (lf lg : GoFloat) (up : Upstream)
    {f : String} {t : Int} {n : Nat}
    (hlat : lat ≠ "") (hlon : lon ≠ "")
    (plat : parseGoFloat lat = some lf) (plon : parseGoFloat lon = some lg)
    (r1 : (goLt lf (.val (-90)) || goGt lf (.val 90)) = false)
    (r2 : (goLt lg (.val (-180)) || goGt lg (.val 180)) = false)
    (hres : getNWSWeather lf lg up = (.ok (f, t), n)) :
    getWeather lat lon up =
      ({ status := 200,
         body := { forecast := f, temperature := characterizeTemperature t,
                   coordinates := fmtF4 lf ++ ", " ++ fmtF4 lg,
                   errorMessage := "" } }, n) := by
  rw [getWeather_validated lat lon lf lg up hlat hlon plat plon r1 r2, hres]

/-! ### Claim theorems -/

/-- Claim C2: for every integer t the classifier returns "hot" iff t ≥ 80,
"cold" iff t ≤ 40, and "moderate" iff 40 < t < 80, so every integer maps
to exactly one of the three labels; the boundary values map as
classify(40) = "cold", classify(41) = "moderate", classify(79) =
"moderate", classify(80) = "hot". -/
theorem claim_C2_classifier :
    (∀ t : Int,
      (characterizeTemperature t = "hot" ↔ 80 ≤ t) ∧
      (characterizeTemperature t = "cold" ↔ t ≤ 40) ∧
      (characterizeTemperature t = "moderate" ↔ 40 < t ∧ t < 80)) ∧
    characterizeTemperature 40 = "cold" ∧
    characterizeTemperature 41 = "moderate" ∧
    characterizeTemperature 79 = "moderate" ∧
    characterizeTemperature 80 = "hot" := by
  refine ⟨fun t => ?_, by decide, by decide, by decide, by decide⟩
  unfold characterizeTemperature
  split_ifs with h1 h2 <;> refine ⟨?_, ?_, ?_⟩ <;> constructor <;> intro h <;>
    first
      | rfl
      | omega
      | exact absurd h (by decide)

/-- Claim C2 witness: the classifier theorem applied at the boundary. -/
theorem claim_C2_classifier_witness :
    characterizeTemperature 80 = "hot" ∧ characterizeTemperature 40 = "cold" :=
  ⟨(claim_C2_classifier.1 80).1.mpr (by norm_num),
   (claim_C2_classifier.1 40).2.1.mpr (by norm_num)⟩

/-- Claim C3: the coverage checker returns true iff the point lies in at
least one of the four inclusive bounding boxes of the specification table
(Continental US, Alaska, Hawaii, Puerto Rico/Caribbean); it is a total
function by construction (it always returns a Boolean, never errors, and
has no side effects).  A NaN coordinate lies in no box and yields false. -/
theorem claim_C3_coverage (lat lon : GoFloat) :
    isNWSCoverageArea lat lon = true ↔
      ∃ a b, lat = GoFloat.val a ∧ lon = GoFloat.val b ∧ inCoverageBoxes a b :=
  covered_iff lat lon

/-- Claim C3 witness: the coverage theorem applied to a point of the
Continental US box. -/
theorem claim_C3_coverage_witness :
    isNWSCoverageArea (GoFloat.val 40) (GoFloat.val (-74)) = true :=
  (claim_C3_coverage (GoFloat.val 40) (GoFloat.val (-74))).mpr
    ⟨40, -74, rfl, rfl, Or.inl (by norm_num)⟩

set_option maxRecDepth 20000 in
set_option maxHeartbeats 2000000 in
/-- Claim C8 counterexample: the conversion is not the exact integer
truncation of v·9/5 + 32 for every temperature v.  At v = 2^62 — a value
json decoding accepts for the int-typed period temperature — the
program's `int(float64(v)*9/5 + 32)` yields 8301034833169298432 (the
float64 rounding of 9·2^62 / 5 absorbs both the low bits and the +32),
while exact truncation of v·9/5 + 32 gives 8301034833169298259. -/
theorem claim_C8_counterexample :
    convertTemperature 4611686018427387904 "C" = 8301034833169298432 ∧
    ratTrunc ((4611686018427387904 : ℚ) * 9 / 5 + 32) = 8301034833169298259 ∧
    convertTemperature 4611686018427387904 "C" ≠
      ratTrunc ((4611686018427387904 : ℚ) * 9 / 5 + 32) := by
  have h1 : convertTemperature 4611686018427387904 "C" = 8301034833169298432 := by
    decide
  have h2 : ratTrunc ((4611686018427387904 : ℚ) * 9 / 5 + 32) = 8301034833169298259 := by
    have h := ratTrunc_nine_fifths 4611686018427387904
    rw [show ((4611686018427387904 : Int) : ℚ) = (4611686018427387904 : ℚ) from by
      norm_cast] at h
    rw [h]
    decide
  refine ⟨h1, h2, ?_⟩
  rw [h1, h2]
  decide

set_option maxRecDepth 20000 in
set_option maxHeartbeats 80000000 in
/-- Claim C8, amended: a period temperature whose unit matches "C" case-
insensitively is converted by the program's float64 computation
int(float64(v)·9/5 + 32); that conversion coincides with the exact
integer truncation toward zero of v·9/5 + 32 for every moderate
temperature (verified exhaustively for -200 ≤ v ≤ 200, so in particular
0 ↦ 32 and 100 ↦ 212) though not for every int64 value; every other unit
string, "F" and unrecognized units alike, passes the value through
unchanged. -/
theorem claim_C8_convert :
    (∀ (v : Int) (u : String), u = "C" ∨ u = "c" →
        convertTemperature v u = goCelsiusToF v) ∧
    (∀ (v : Int) (u : String), u ≠ "C" → u ≠ "c" → convertTemperature v u = v) ∧
    (∀ n : Nat, n ≤ 400 →
        goCelsiusToF ((n : Int) - 200) =
          ratTrunc ((((n : Int) - 200 : Int) : ℚ) * 9 / 5 + 32)) ∧
    convertTemperature 0 "C" = 32 ∧ convertTemperature 100 "C" = 212 ∧
    convertTemperature 70 "F" = 70 := by
  have h400 : ∀ n : Nat, n ≤ 400 →
      goCelsiusToF ((n : Int) - 200) = (9 * ((n : Int) - 200) + 160).tdiv 5 := by
    decide
  refine ⟨?_, ?_, ?_, by decide, by decide, by decide⟩
  · intro v u hu
    unfold convertTemperature
    rw [if_pos (beq_iff_eq.mpr ((strToUpper_eq_C u).mpr hu))]
  · intro v u h1 h2
    unfold convertTemperature
    rw [if_neg]
    intro hb
    rcases (strToUpper_eq_C u).mp (beq_iff_eq.mp hb) with rfl | rfl
    · exact h1 rfl
    · exact h2 rfl
  · intro n hn
    rw [ratTrunc_nine_fifths]
    exact h400 n hn

set_option maxRecDepth 20000 in
set_option maxHeartbeats 2000000 in
/-- Claim C8 witness: the amended conversion theorem applied at 0 °C,
100 °c, the 70 °F pass-through, and the agreement conjunct at n = 240
(temperature 40 °C). -/
theorem claim_C8_convert_witness :
    convertTemperature 0 "C" = 32 ∧ convertTemperature 100 "c" = 212 ∧
    convertTemperature 70 "F" = 70 ∧
    goCelsiusToF (((240 : Nat) : Int) - 200) =
      ratTrunc (((((240 : Nat) : Int) - 200 : Int) : ℚ) * 9 / 5 + 32) := by
  refine ⟨?_, ?_, ?_, claim_C8_convert.2.2.1 240 (by decide)⟩
  · rw [claim_C8_convert.1 0 "C" (Or.inl rfl)]
    decide
  · rw [claim_C8_convert.1 100 "c" (Or.inr rfl)]
    decide
  · exact claim_C8_convert.2.1 70 "F" (by decide) (by decide)

/-- Claim C1: whenever both parameters parse as floats, pass the range
checks, and the resolver succeeds with forecast text f and Fahrenheit
temperature t, the handler replies 200 with forecast f, temperature
classify(t), and coordinates "<lat>, <lon>" with each value formatted to
four decimal places. -/
theorem claim_C1_success (lat lon : String) (lf lg : GoFloat) (up : Upstream)
    (f : String) (t : Int) (n : Nat)
    (hlat : lat ≠ "") (hlon : lon ≠ "")
    (plat : parseGoFloat lat = some lf) (plon : parseGoFloat lon = some lg)
    (r1 : (goLt lf (.val (-90)) || goGt lf (.val 90)) = false)
    (r2 : (goLt lg (.val (-180)) || goGt lg (.val 180)) = false)
    (hres : getNWSWeather lf lg up = (.ok (f, t), n)) :
    getWeather lat lon up =
      ({ status := 200,
         body := { forecast := f, temperature := characterizeTemperature t,
                   coordinates := fmtF4 lf ++ ", " ++ fmtF4 lg,
                   errorMessage := "" } }, n) :=
  getWeather_resolver_ok lat lon lf lg up hlat hlon plat plon r1 r2 hres

/-- The mocked end-to-end success scenario of the specification: points
body carrying forecast URL "http://x/f" and a single period
(shortForecast "Sunny", temperature 85, unit "F"). -/
def upOK : Upstream :=
  ⟨.response 200 (.parsed "http://x/f"), .response 200 (.parsed [⟨"Sunny", 85, "F"⟩])⟩

set_option maxRecDepth 4000 in
/-- Claim C1 witness: the success theorem at the mocked scenario
lat=40.7128, lon=-74.0060, together with the exact serialized body. -/
theorem claim_C1_success_witness :
    getWeather "40.7128" "-74.0060" upOK =
      ({ status := 200,
         body := { forecast := "Sunny", temperature := "hot",
                   coordinates := "40.7128, -74.0060", errorMessage := "" } }, 2) ∧
    encodeWeatherResponse (getWeather "40.7128" "-74.0060" upOK).1.body =
      "\x7b\"forecast\":\"Sunny\",\"temperature\":\"hot\",\"coordinates\":\"40.7128, -74.0060\"\x7d\n" := by
  have h1 : getWeather "40.7128" "-74.0060" upOK =
      ({ status := 200,
         body := { forecast := "Sunny", temperature := "hot",
                   coordinates := "40.7128, -74.0060", errorMessage := "" } }, 2) := by
    rw [claim_C1_success "40.7128" "-74.0060" (.val (Rat.divInt 407128 10000))
      (.val (Rat.divInt (-740060) 10000)) upOK "Sunny" 85 2
      (by decide) (by decide) (by decide) (by decide)
      (by decide) (by decide) (by decide)]
    decide
  exact ⟨h1, by rw [h1]; decide⟩

/-- Claim C7: input validation runs in the code's fixed order with these
exact 400 messages, the first failing check determining the response:
missing parameter, latitude format, longitude format, latitude range,
longitude range.  "lat outside [-90,90]" is the code's float comparison
`latFloat < -90 || latFloat > 90` (false for NaN, see claim C10).  No
upstream call is attempted on a validation failure. -/
theorem claim_C7_validation (lat lon : String) (up : Upstream) :
    ((lat = "" ∨ lon = "") →
      getWeather lat lon up =
        (respondWithError "Missing required parameters: lat and lon" 400, 0)) ∧
    (lat ≠ "" → lon ≠ "" → parseGoFloat lat = none →
      getWeather lat lon up = (respondWithError "Invalid latitude format" 400, 0)) ∧
    (∀ lf, lat ≠ "" → lon ≠ "" → parseGoFloat lat = some lf → parseGoFloat lon = none →
      getWeather lat lon up = (respondWithError "Invalid longitude format" 400, 0)) ∧
    (∀ lf lg, lat ≠ "" → lon ≠ "" →
      parseGoFloat lat = some lf → parseGoFloat lon = some lg →
      (goLt lf (.val (-90)) || goGt lf (.val 90)) = true →
      getWeather lat lon up =
        (respondWithError "Latitude must be between -90 and 90" 400, 0)) ∧
    (∀ lf lg, lat ≠ "" → lon ≠ "" →
      parseGoFloat lat = some lf → parseGoFloat lon = some lg →
      (goLt lf (.val (-90)) || goGt lf (.val 90)) = false →
      (goLt lg (.val (-180)) || goGt lg (.val 180)) = true →
      getWeather lat lon up =
        (respondWithError "Longitude must be between -180 and 180" 400, 0)) := by
  refine ⟨?_, ?_, ?_, ?_, ?_⟩
  · intro h
    unfold getWeather
    rw [if_pos h]
  · intro h1 h2 hp
    unfold getWeather
    rw [if_neg (by simp [h1, h2])]
    simp only [hp]
  · intro lf h1 h2 hp hq
    unfold getWeather
    rw [if_neg (by simp [h1, h2])]
    simp only [hp, hq]
  · intro lf lg h1 h2 hp hq hr
    unfold getWeather
    rw [if_neg (by simp [h1, h2])]
    simp only [hp, hq, hr, if_true]
  · intro lf lg h1 h2 hp hq hr1 hr2
    unfold getWeather
    rw [if_neg (by simp [h1, h2])]
    simp only [hp, hq, hr1, hr2, Bool.false_eq_true, if_false, if_true]

/-- An arbitrary upstream oracle; requests failing validation never
consult it. -/
def up0 : Upstream := ⟨.transportFail "", .transportFail ""⟩

/-- Claim C7 witness: every validation branch exercised at a concrete
request. -/
theorem claim_C7_validation_witness :
    getWeather "" "5" up0 =
      (respondWithError "Missing required parameters: lat and lon" 400, 0) ∧
    getWeather "abc" "5" up0 = (respondWithError "Invalid latitude format" 400, 0) ∧
    getWeather "5" "abc" up0 = (respondWithError "Invalid longitude format" 400, 0) ∧
    getWeather "91" "5" up0 =
      (respondWithError "Latitude must be between -90 and 90" 400, 0) ∧
    getWeather "5" "181" up0 =
      (respondWithError "Longitude must be between -180 and 180" 400, 0) :=
  ⟨(claim_C7_validation "" "5" up0).1 (Or.inl rfl),
    (claim_C7_validation "abc" "5" up0).2.1 (by decide) (by decide) (by decide),
    (claim_C7_validation "5" "abc" up0).2.2.1 (.val 5) (by decide) (by decide)
      (by decide) (by decide),
    (claim_C7_validation "91" "5" up0).2.2.2.1 (.val 91) (.val 5) (by decide) (by decide)
      (by decide) (by decide) (by decide),
    (claim_C7_validation "5" "181" up0).2.2.2.2 (.val 5) (.val 181) (by decide) (by decide)
      (by decide) (by decide) (by decide) (by decide)⟩

theorem coverageMsg_contains (x y : GoFloat) :
    strContains (coverageMsg x y) "outside NWS coverage area" = true := by
  have hsplit : coverageMsg x y =
      ("coordinates (" ++ fmtF4 x ++ ", " ++ fmtF4 y ++ ") are ") ++
        "outside NWS coverage area" ++ " (US and territories only)" := by
    unfold coverageMsg
    rw [show (") are outside NWS coverage area (US and territories only)" : String) =
        ") are " ++ ("outside NWS coverage area" ++ " (US and territories only)") from by decide]
    simp only [← String.append_assoc]
  rw [hsplit]
  exact strContains_mid _ _ _

theorem gridMsg_contains (x y : GoFloat) :
    strContains (gridNotFoundMsg x y) "not found in NWS grid system" = true := by
  have hsplit : gridNotFoundMsg x y =
      ("coordinates (" ++ fmtF4 x ++ ", " ++ fmtF4 y ++ ") ") ++
        "not found in NWS grid system" ++ " - may be outside coverage area" := by
    unfold gridNotFoundMsg
    rw [show (") not found in NWS grid system - may be outside coverage area" : String) =
        ") " ++ ("not found in NWS grid system" ++ " - may be outside coverage area") from by decide]
    simp only [← String.append_assoc]
  rw [hsplit]
  exact strContains_mid _ _ _

theorem gridMsg_contains_notfound (x y : GoFloat) :
    strContains (gridNotFoundMsg x y) "not found" = true := by
  have hsplit : gridNotFoundMsg x y =
      ("coordinates (" ++ fmtF4 x ++ ", " ++ fmtF4 y ++ ") ") ++
        "not found" ++ " in NWS grid system - may be outside coverage area" := by
    unfold gridNotFoundMsg
    rw [show (") not found in NWS grid system - may be outside coverage area" : String) =
        ") " ++ ("not found" ++ " in NWS grid system - may be outside coverage area") from by decide]
    simp only [← String.append_assoc]
  rw [hsplit]
  exact strContains_mid _ _ _

/-- Claim C4: a request whose parameters parse to finite in-range values
lying outside all four coverage boxes fails in the resolver with the
out-of-coverage error before any upstream HTTP call (call count 0), and
the handler returns 400 with the resolver's message, which mentions
"outside". -/
theorem claim_C4_out_of_coverage (lat lon : String) (a b : ℚ) (up : Upstream)
    (hlat : lat ≠ "") (hlon : lon ≠ "")
    (plat : parseGoFloat lat = some (.val a)) (plon : parseGoFloat lon = some (.val b))
    (hra : -90 ≤ a ∧ a ≤ 90) (hrb : -180 ≤ b ∧ b ≤ 180)
    (hout : ¬ inCoverageBoxes a b) :
    getNWSWeather (.val a) (.val b) up = (.error (coverageMsg (.val a) (.val b)), 0) ∧
    getWeather lat lon up = (respondWithError (coverageMsg (.val a) (.val b)) 400, 0) ∧
    strContains (coverageMsg (.val a) (.val b)) "outside" = true := by
  have hcov : isNWSCoverageArea (.val a) (.val b) = false := by
    rw [← Bool.not_eq_true, covered_iff]
    rintro ⟨a2, b2, ha2, hb2, hbox⟩
    rw [GoFloat.val.injEq] at ha2 hb2
    subst ha2
    subst hb2
    exact hout hbox
  have r1 : (goLt (.val a) (.val (-90)) || goGt (.val a) (.val 90)) = false := by
    rw [goLt_val, goGt_val]
    simp only [Bool.or_eq_false_iff, decide_eq_false_iff_not, not_lt]
    exact ⟨hra.1, hra.2⟩
  have r2 : (goLt (.val b) (.val (-180)) || goGt (.val b) (.val 180)) = false := by
    rw [goLt_val, goGt_val]
    simp only [Bool.or_eq_false_iff, decide_eq_false_iff_not, not_lt]
    exact ⟨hrb.1, hrb.2⟩
  have hres := getNWSWeather_uncovered (.val a) (.val b) up hcov
  refine ⟨hres, ?_, ?_⟩
  · rw [getWeather_resolver_error lat lon _ _ up hlat hlon plat plon r1 r2 hres,
      if_pos (coverageMsg_contains (.val a) (.val b))]
  · have hsplit : coverageMsg (.val a) (.val b) =
        ("coordinates (" ++ fmtF4 (.val a) ++ ", " ++ fmtF4 (.val b) ++ ") are ") ++
          "outside" ++ " NWS coverage area (US and territories only)" := by
      unfold coverageMsg
      rw [show (") are outside NWS coverage area (US and territories only)" : String) =
          ") are " ++ ("outside" ++ " NWS coverage area (US and territories only)") from
          by decide]
      simp only [← String.append_assoc]
    rw [hsplit]
    exact strContains_mid _ _ _

set_option maxRecDepth 4000 in
/-- Claim C4 witness: the theorem at London (51.5074, -0.1278), in range
but outside every coverage box. -/
theorem claim_C4_out_of_coverage_witness :
    getWeather "51" "-1" up0 =
      (respondWithError
        "coordinates (51.0000, -1.0000) are outside NWS coverage area (US and territories only)"
        400, 0) := by
  have h := (claim_C4_out_of_coverage "51" "-1" 51 (-1)
    up0 (by decide) (by decide) (by decide) (by decide)
    (by decide) (by decide) (by decide)).2.1
  rw [h]
  decide

/-- Claim C5: when the points lookup returns HTTP 404 for a validated
covered coordinate, the resolver fails with the grid-not-found message —
a message distinct from every other failure text — and the handler maps
it to 400 (not 500) with that message, which references the grid system
and "not found". -/
theorem claim_C5_grid404 (lat lon : String) (lf lg : GoFloat) (up : Upstream)
    (body : ReadBody String)
    (hlat : lat ≠ "") (hlon : lon ≠ "")
    (plat : parseGoFloat lat = some lf) (plon : parseGoFloat lon = some lg)
    (r1 : (goLt lf (.val (-90)) || goGt lf (.val 90)) = false)
    (r2 : (goLt lg (.val (-180)) || goGt lg (.val 180)) = false)
    (hcov : isNWSCoverageArea lf lg = true)
    (hpts : up.points = .response 404 body) :
    getNWSWeather lf lg up = (.error (gridNotFoundMsg lf lg), 1) ∧
    getWeather lat lon up = (respondWithError (gridNotFoundMsg lf lg) 400, 1) ∧
    strContains (gridNotFoundMsg lf lg) "not found in NWS grid system" = true ∧
    strContains (gridNotFoundMsg lf lg) "not found" = true := by
  have hres := getNWSWeather_grid404 lf lg up body hcov hpts
  refine ⟨hres, ?_, gridMsg_contains lf lg, gridMsg_contains_notfound lf lg⟩
  rw [getWeather_resolver_error lat lon lf lg up hlat hlon plat plon r1 r2 hres]
  cases h1 : strContains (gridNotFoundMsg lf lg) "outside NWS coverage area" with
  | true => rw [if_pos rfl]
  | false => rw [if_neg Bool.false_ne_true, if_pos (gridMsg_contains lf lg)]

/-- The specification's 404 scenario: the points service answers 404. -/
def up404 : Upstream := ⟨.response 404 (.parsed ""), .transportFail ""⟩

set_option maxRecDepth 4000 in
/-- Claim C5 witness: the theorem at the mocked scenario, points service
returning 404 for (40.7128, -74.0060). -/
theorem claim_C5_grid404_witness :
    getWeather "40" "-74" up404 =
      (respondWithError
        "coordinates (40.0000, -74.0000) not found in NWS grid system - may be outside coverage area"
        400, 1) := by
  have h := (claim_C5_grid404 "40" "-74" (.val 40)
    (.val (-74)) up404 (.parsed "") (by decide) (by decide)
    (by decide) (by decide) (by decide) (by decide) (by decide) rfl).2.1
  rw [h]
  decide

/-- Claim C10: a request with lat=NaN (which Go float parsing accepts)
passes both range checks, because every comparison against NaN is false;
it reaches the coverage checker, which rejects NaN (all interval
comparisons false), so the handler answers 400 with the out-of-coverage
message — not any validation-error message. -/
theorem claim_C10_nan (lon : String) (b : ℚ) (up : Upstream)
    (hlon : lon ≠ "")
    (plon : parseGoFloat lon = some (.val b))
    (r2 : (goLt (.val b) (.val (-180)) || goGt (.val b) (.val 180)) = false) :
    parseGoFloat "NaN" = some .nan ∧
    (goLt GoFloat.nan (.val (-90)) || goGt GoFloat.nan (.val 90)) = false ∧
    isNWSCoverageArea .nan (.val b) = false ∧
    getWeather "NaN" lon up = (respondWithError (coverageMsg .nan (.val b)) 400, 0) ∧
    strContains (coverageMsg .nan (.val b)) "outside NWS coverage area" = true := by
  have hp : parseGoFloat "NaN" = some .nan := by decide
  have hcov : isNWSCoverageArea .nan (.val b) = false := by
    rw [← Bool.not_eq_true, covered_iff]
    rintro ⟨a2, b2, ha2, hb2, hbox⟩
    cases ha2
  refine ⟨hp, rfl, hcov, ?_, coverageMsg_contains _ _⟩
  rw [getWeather_resolver_error "NaN" lon .nan (.val b) up (by decide) hlon hp plon rfl r2
      (getNWSWeather_uncovered _ _ up hcov),
    if_pos (coverageMsg_contains _ _)]

set_option maxRecDepth 4000 in
/-- Claim C10 witness: the theorem at lon=-74.0060. -/
theorem claim_C10_nan_witness :
    getWeather "NaN" "-74" up0 =
      (respondWithError
        "coordinates (NaN, -74.0000) are outside NWS coverage area (US and territories only)"
        400, 0) := by
  have h := (claim_C10_nan "-74" (-74) up0 (by decide)
    (by decide) (by decide)).2.2.2.1
  rw [h]
  decide

/-! ### The fixed-format resolver failure texts never contain the
handler's two dispatch sentinels -/

theorem gridStatusMsg_sentinel1 (n : Nat) :
    strContains ("grid points API returned status: " ++ toString n)
      "outside NWS coverage area" = false :=
  strContains_nat_tail_eq_false _ n _ 'o' ("utside NWS coverage area").data (by decide)
    (by decide) (by decide) (by decide)

theorem gridStatusMsg_sentinel2 (n : Nat) :
    strContains ("grid points API returned status: " ++ toString n)
      "not found in NWS grid system" = false :=
  strContains_nat_tail_eq_false _ n _ 'n' ("ot found in NWS grid system").data (by decide)
    (by decide) (by decide) (by decide)

theorem forecastStatusMsg_sentinel1 (n : Nat) :
    strContains ("forecast API returned status: " ++ toString n)
      "outside NWS coverage area" = false :=
  strContains_nat_tail_eq_false _ n _ 'o' ("utside NWS coverage area").data (by decide)
    (by decide) (by decide) (by decide)

theorem forecastStatusMsg_sentinel2 (n : Nat) :
    strContains ("forecast API returned status: " ++ toString n)
      "not found in NWS grid system" = false :=
  strContains_nat_tail_eq_false _ n _ 'n' ("ot found in NWS grid system").data (by decide)
    (by decide) (by decide) (by decide)

/-- Claim C6, amended: for a validated request, every resolver failure
whose error text contains neither "outside NWS coverage area" nor
"not found in NWS grid system" yields 500 with exactly the generic
message "Failed to retrieve weather data" (part A); the fixed-format
failures — any other non-200 grid status, a non-200 forecast status, a
missing forecast locator, and an empty forecast-periods list — always
satisfy this and are unconditionally mapped to the 500 generic reply
(parts B-E).  A wrapped transport/read/parse error text that does embed
one of the sentinel phrases (possible, since the forecast URL is chosen
by the upstream body and is quoted inside Go's transport error text) is
instead returned verbatim with status 400; see the counterexample. -/
theorem claim_C6_amended (lat lon : String) (lf lg : GoFloat) (up : Upstream)
    (hlat : lat ≠ "") (hlon : lon ≠ "")
    (plat : parseGoFloat lat = some lf) (plon : parseGoFloat lon = some lg)
    (r1 : (goLt lf (.val (-90)) || goGt lf (.val 90)) = false)
    (r2 : (goLt lg (.val (-180)) || goGt lg (.val 180)) = false) :
    (∀ e n, getNWSWeather lf lg up = (.error e, n) →
      strContains e "outside NWS coverage area" = false →
      strContains e "not found in NWS grid system" = false →
      getWeather lat lon up =
        (respondWithError "Failed to retrieve weather data" 500, n)) ∧
    (∀ status body, isNWSCoverageArea lf lg = true →
      up.points = .response status body → status ≠ 404 → status ≠ 200 →
      getWeather lat lon up =
        (respondWithError "Failed to retrieve weather data" 500, 1)) ∧
    (∀ url fstatus fbody, isNWSCoverageArea lf lg = true →
      up.points = .response 200 (.parsed url) → url ≠ "" →
      up.forecast = .response fstatus fbody → fstatus ≠ 200 →
      getWeather lat lon up =
        (respondWithError "Failed to retrieve weather data" 500, 2)) ∧
    (isNWSCoverageArea lf lg = true → up.points = .response 200 (.parsed "") →
      getWeather lat lon up =
        (respondWithError "Failed to retrieve weather data" 500, 1)) ∧
    (∀ url, isNWSCoverageArea lf lg = true →
      up.points = .response 200 (.parsed url) → url ≠ "" →
      up.forecast = .response 200 (.parsed []) →
      getWeather lat lon up =
        (respondWithError "Failed to retrieve weather data" 500, 2)) := by
  have hA : ∀ e n, getNWSWeather lf lg up = (.error e, n) →
      strContains e "outside NWS coverage area" = false →
      strContains e "not found in NWS grid system" = false →
      getWeather lat lon up =
        (respondWithError "Failed to retrieve weather data" 500, n) := by
    intro e n hres h1 h2
    rw [getWeather_resolver_error lat lon lf lg up hlat hlon plat plon r1 r2 hres,
      if_neg (by rw [h1]; exact Bool.false_ne_true),
      if_neg (by rw [h2]; exact Bool.false_ne_true)]
  refine ⟨hA, ?_, ?_, ?_, ?_⟩
  · intro status body hcov hpts h404 h200
    exact hA _ 1 (getNWSWeather_gridStatus lf lg up status body hcov hpts h404 h200)
      (gridStatusMsg_sentinel1 status) (gridStatusMsg_sentinel2 status)
  · intro url fstatus fbody hcov hpts hurl hfc hf200
    exact hA _ 2 (getNWSWeather_forecastStatus lf lg up url fstatus fbody hcov hpts hurl hfc hf200)
      (forecastStatusMsg_sentinel1 fstatus) (forecastStatusMsg_sentinel2 fstatus)
  · intro hcov hpts
    exact hA _ 1 (getNWSWeather_noURL lf lg up hcov hpts) (by decide) (by decide)
  · intro url hcov hpts hurl hfc
    exact hA _ 2 (getNWSWeather_noPeriods lf lg up url hcov hpts hurl hfc)
      (by decide) (by decide)

/-- The 503 and empty-periods failure scenarios of the specification. -/
def up503 : Upstream := ⟨.response 503 (.parsed ""), .transportFail ""⟩

/-- Upstream whose forecast body has an empty periods list. -/
def upEmptyPeriods : Upstream :=
  ⟨.response 200 (.parsed "http://x/f"), .response 200 (.parsed [])⟩

set_option maxRecDepth 4000 in
/-- Claim C6 (amended) witness: a 503 points status and an empty
forecast-periods list both produce the 500 generic reply. -/
theorem claim_C6_amended_witness :
    getWeather "40" "-74" up503 =
      (respondWithError "Failed to retrieve weather data" 500, 1) ∧
    getWeather "40" "-74" upEmptyPeriods =
      (respondWithError "Failed to retrieve weather data" 500, 2) := by
  constructor
  · exact (claim_C6_amended "40" "-74" (.val 40)
      (.val (-74)) up503 (by decide) (by decide)
      (by decide) (by decide) (by decide) (by decide)).2.1
      503 (ReadBody.parsed "") (by decide) rfl (by decide) (by decide)
  · exact (claim_C6_amended "40" "-74" (.val 40)
      (.val (-74)) upEmptyPeriods (by decide) (by decide)
      (by decide) (by decide) (by decide) (by decide)).2.2.2.2
      "http://x/f" (by decide) rfl (by decide) rfl

/-- Upstream that makes the forecast fetch fail with a transport error
whose text — which embeds the upstream-chosen forecast URL, as Go's
url.Error does — contains the handler's grid-sentinel phrase. -/
def upLeak : Upstream :=
  ⟨.response 200 (.parsed "http://x/f"),
   .transportFail
     "Get \"http://x/ not found in NWS grid system\": unsupported protocol scheme"⟩

set_option maxRecDepth 4000 in
/-- Claim C6 counterexample: a forecast-fetch transport failure (neither
out-of-coverage nor grid-not-found) whose wrapped error text contains
"not found in NWS grid system" is answered with 400 and the verbatim
upstream error text, not with the 500 generic message the claim
requires. -/
theorem claim_C6_counterexample :
    (getWeather "40" "-74" upLeak).1.status = 400 ∧
    (getWeather "40" "-74" upLeak).1.body.errorMessage =
      "failed to get forecast: Get \"http://x/ not found in NWS grid system\": unsupported protocol scheme" ∧
    (getWeather "40" "-74" upLeak).1.body.errorMessage ≠
      "Failed to retrieve weather data" := by
  have h : getWeather "40" "-74" upLeak =
      (respondWithError
        "failed to get forecast: Get \"http://x/ not found in NWS grid system\": unsupported protocol scheme"
        400, 2) := by
    decide
  refine ⟨?_, ?_, ?_⟩ <;> rw [h] <;> decide

/-! ### Response shape and serialization -/

theorem getWeather_shape (lat lon : String) (up : Upstream) :
    ((getWeather lat lon up).1.status = 200 ∧
      (getWeather lat lon up).1.body.errorMessage = "") ∨
    ((getWeather lat lon up).1.status ≠ 200 ∧
      (getWeather lat lon up).1.body.forecast = "" ∧
      (getWeather lat lon up).1.body.temperature = "" ∧
      (getWeather lat lon up).1.body.coordinates = "" ∧
      (getWeather lat lon up).1.body.errorMessage ≠ "") := by
  unfold getWeather
  split
  · exact Or.inr ⟨by decide, rfl, rfl, rfl, by decide⟩
  split
  · exact Or.inr ⟨by decide, rfl, rfl, rfl, by decide⟩
  split
  · exact Or.inr ⟨by decide, rfl, rfl, rfl, by decide⟩
  split
  · exact Or.inr ⟨by decide, rfl, rfl, rfl, by decide⟩
  split
  · exact Or.inr ⟨by decide, rfl, rfl, rfl, by decide⟩
  split
  case _ e n heq =>
    split
    case _ h1 =>
      exact Or.inr ⟨(by decide : (400 : Nat) ≠ 200), rfl, rfl, rfl,
        strContains_ne_empty e "outside NWS coverage area" (by decide) h1⟩
    split
    case _ h2 =>
      exact Or.inr ⟨(by decide : (400 : Nat) ≠ 200), rfl, rfl, rfl,
        strContains_ne_empty e "not found in NWS grid system" (by decide) h2⟩
    exact Or.inr ⟨(by decide : (500 : Nat) ≠ 200), rfl, rfl, rfl,
      (by decide : "Failed to retrieve weather data" ≠ "")⟩
  case _ r n heq =>
    exact Or.inl ⟨rfl, rfl⟩

theorem encode_success_body (f t c : String) :
    encodeWeatherResponse ⟨f, t, c, ""⟩ =
      "\x7b\"forecast\":" ++ jsonString f ++ ",\"temperature\":" ++ jsonString t ++
        ",\"coordinates\":" ++ jsonString c ++ "\x7d\n" := by
  simp [encodeWeatherResponse, String.append_empty]

theorem encode_error_body (msg : String) (h : msg ≠ "") :
    encodeWeatherResponse ⟨"", "", "", msg⟩ =
      "\x7b\"forecast\":\"\",\"temperature\":\"\",\"coordinates\":\"\",\"error\":" ++
        jsonString msg ++ "\x7d\n" := by
  simp only [encodeWeatherResponse, if_neg h]
  rw [show (jsonString "" : String) = "\"\"" from by decide]
  simp only [← String.append_assoc]
  congr 2

/-- Claim C9, amended: per response exactly one of the two field groups
is non-empty — on success (status 200) the error field is the empty
string and, being the only field with the omitempty option, the error
key is omitted from the serialized JSON; on failure forecast,
temperature and coordinates are empty strings and the error field is
non-empty, but the three empty fields are still serialized (as empty
strings), not omitted: only error carries omit-if-empty semantics. -/
theorem claim_C9_amended (lat lon : String) (up : Upstream) :
    ((getWeather lat lon up).1.status = 200 →
      (getWeather lat lon up).1.body.errorMessage = "" ∧
      encodeWeatherResponse (getWeather lat lon up).1.body =
        "\x7b\"forecast\":" ++ jsonString (getWeather lat lon up).1.body.forecast ++
          ",\"temperature\":" ++ jsonString (getWeather lat lon up).1.body.temperature ++
          ",\"coordinates\":" ++ jsonString (getWeather lat lon up).1.body.coordinates ++
          "\x7d\n") ∧
    ((getWeather lat lon up).1.status ≠ 200 →
      (getWeather lat lon up).1.body.forecast = "" ∧
      (getWeather lat lon up).1.body.temperature = "" ∧
      (getWeather lat lon up).1.body.coordinates = "" ∧
      (getWeather lat lon up).1.body.errorMessage ≠ "" ∧
      encodeWeatherResponse (getWeather lat lon up).1.body =
        "\x7b\"forecast\":\"\",\"temperature\":\"\",\"coordinates\":\"\",\"error\":" ++
          jsonString (getWeather lat lon up).1.body.errorMessage ++ "\x7d\n") := by
  rcases hb : (getWeather lat lon up).1.body with ⟨bf, bt, bc, bm⟩
  rcases getWeather_shape lat lon up with ⟨h200, herr⟩ | ⟨hn200, hf, ht, hc, he⟩ <;>
    rw [hb] at *
  · refine ⟨fun _ => ⟨herr, ?_⟩, fun hne => absurd h200 hne⟩
    rw [show bm = "" from herr]
    exact encode_success_body bf bt bc
  · refine ⟨fun h2 => absurd h2 hn200, fun _ => ⟨hf, ht, hc, he, ?_⟩⟩
    rw [show bf = "" from hf, show bt = "" from ht, show bc = "" from hc]
    exact encode_error_body bm he

set_option maxRecDepth 4000 in
/-- Claim C9 (amended) witness: the amended theorem at a success request
(error key omitted) and at a failure request (error key present, the
other three fields serialized as empty strings). -/
theorem claim_C9_amended_witness :
    encodeWeatherResponse (getWeather "40" "-74" upOK).1.body =
      "\x7b\"forecast\":\"Sunny\",\"temperature\":\"hot\",\"coordinates\":\"40.0000, -74.0000\"\x7d\n" ∧
    encodeWeatherResponse (getWeather "" "" up0).1.body =
      "\x7b\"forecast\":\"\",\"temperature\":\"\",\"coordinates\":\"\",\"error\":\"Missing required parameters: lat and lon\"\x7d\n" := by
  have hgw : getWeather "40" "-74" upOK =
      ({ status := 200,
         body := { forecast := "Sunny", temperature := "hot",
                   coordinates := "40.0000, -74.0000", errorMessage := "" } }, 2) := by
    decide
  constructor
  · have h := ((claim_C9_amended "40" "-74" upOK).1 (by rw [hgw])).2
    rw [h, hgw]
    decide
  · have h := ((claim_C9_amended "" "" up0).2 (by decide)).2.2.2.2
    rw [h]
    decide

/-- Claim C9 counterexample: on a failing request the serialized JSON
still contains the forecast, temperature and coordinates keys with empty
string values — the claim's assertion that on failure the body contains
only the error field (the others omitted from the JSON) is false; only
the error field has the omitempty option. -/
theorem claim_C9_counterexample :
    encodeWeatherResponse (getWeather "" "" up0).1.body =
      "\x7b\"forecast\":\"\",\"temperature\":\"\",\"coordinates\":\"\",\"error\":\"Missing required parameters: lat and lon\"\x7d\n" ∧
    strContains (encodeWeatherResponse (getWeather "" "" up0).1.body)
      "\"forecast\"" = true ∧
    strContains (encodeWeatherResponse (getWeather "" "" up0).1.body)
      "\"temperature\"" = true ∧
    strContains (encodeWeatherResponse (getWeather "" "" up0).1.body)
      "\"coordinates\"" = true := by
  refine ⟨by decide, by decide, by decide, by decide⟩

end WeatherAPI
